import Mathlib

/-!
Verification of the hyperlocal-marketplace backend's proximity-search core.

The definitions below are a shallow embedding of the repository's JavaScript:

* `Shop.findNearby` embeds the SQL query in `src/models/shop.model.js`
  (filter on `is_approved` / `status = 'approved'` and `ST_DWithin`,
  `ORDER BY distance`, `LIMIT`).  The store's geographic distance
  (`ST_Distance`) is external to the repository, so it enters as a function
  parameter; `ORDER BY distance` is modelled as a deterministic stable sort
  on the distance key (equal keys keep the store's row order).
* `findNearbyShops`, `createShop` and `updateShop` embed the corresponding
  methods of the Mongo-backed `ShopService` (`shop.service.js`); the `$near`
  operator both filters by `maxDistance` and orders by distance, and the
  geolib distance attached to each result is likewise an external function
  parameter.
* `nearbyShopsValidation` and `getNearbyShops` embed the express-validator
  chain in `validation.middleware.js` and the route handler in
  `shop.controller.js`.  Query parameters arrive as optional parsed numbers;
  an absent parameter is `none`.
* `haversineDistance` and `calculateBoundingBox` embed `src/utils/geo.js`
  over the reals (JavaScript numbers are modelled as real numbers).

JavaScript `undefined` is modelled by `Option`, and the strict comparison
`x !== y` between a possibly-`undefined` field and a defined one is `true`
whenever `x` is `undefined`; `jsNeqS` / `jsNeqQ` capture exactly that.
-/

/-- Moderation state of a shop (`status` column / field). -/
inductive ShopStatus where
  | pending
  | approved
  | rejected
deriving DecidableEq, Repr

/-- Stable insertion of `x` into a list ordered by the numeric `key`;
models where a row with a given distance lands in an ordered result. -/
def insertByKey {β : Type} (key : β → ℚ) (x : β) (l : List β) : List β :=
  @List.orderedInsert β (fun a b => key a ≤ key b)
    (fun a b => inferInstanceAs (Decidable (key a ≤ key b))) x l

/-- Deterministic model of ordering rows by a numeric `key`
(`ORDER BY distance` / Mongo `$near` ordering): a stable insertion sort,
so rows with equal keys keep the order in which the store holds them. -/
def sortByKey {β : Type} (key : β → ℚ) (l : List β) : List β :=
  @List.insertionSort β (fun a b => key a ≤ key b)
    (fun a b => inferInstanceAs (Decidable (key a ≤ key b))) l

/-- A row of the Postgres `shops` table as selected by `Shop.findNearby`
(`src/models/shop.model.js`). -/
structure PShop where
  id : Nat
  owner_id : Nat
  name : String
  banner_url : Option String
  address : String
  whatsapp : String
  longitude : ℚ
  latitude : ℚ
  is_approved : Bool
  status : ShopStatus
deriving DecidableEq, Repr

/-- The `WHERE` clause of `Shop.findNearby` applied to a row paired with its
computed `distance` column: `s.is_approved = true AND s.status = 'approved'`. -/
def approvedRow (p : PShop × ℚ) : Bool :=
  p.1.is_approved && p.1.status == ShopStatus.approved

/-- Embedding of `Shop.findNearby(lat, lng, radius = 5000, limit = 10)`
(`src/models/shop.model.js`): every row gets a `distance` column
(`ST_Distance` to the point `(lng, lat)`, supplied as the external function
`dist`), rows must be approved and within `radius` (`ST_DWithin`), the
result is ordered by `distance` and truncated by `LIMIT`.  The radius is in
meters (geography `ST_DWithin` takes meters). -/
def Shop.findNearby (db : List PShop) (dist : ℚ → ℚ → PShop → ℚ)
    (lat lng : ℚ) (radius : ℚ := 5000) (lim : Nat := 10) : List (PShop × ℚ) :=
  (sortByKey Prod.snd
    ((db.map (fun s => (s, dist lng lat s))).filter
      (fun p => approvedRow p && decide (p.2 ≤ radius)))).take lim

/-- A Mongo `Shop` document as used by `ShopService` (`shop.service.js`). -/
structure MShop where
  id : Nat
  name : String
  description : Option String
  address : String
  locationLng : ℚ
  locationLat : ℚ
  category : String
  contactPhone : String
  whatsappNumber : String
  bannerImage : Option String
  owner : Nat
  status : ShopStatus
deriving DecidableEq, Repr

/-- `Math.round` (JavaScript): floor of `x + 1/2`. -/
def jsRound (x : ℚ) : Int :=
  Int.floor (x + 1 / 2)

/-- One element of the list `ShopService.findNearbyShops` returns: the shop
with the attached `distance` object.  `(distance / 1000).toFixed(1)` is a
decimal string with one digit; it is modelled by its numeric value in tenths
of a kilometer. -/
structure ShopWithDistance where
  shop : MShop
  distanceMeters : Int
  distanceKmTenths : Int
deriving DecidableEq, Repr

/-- Embedding of `ShopService.findNearbyShops(latitude, longitude,
maxDistance = 5000, category = null)` (`shop.service.js`).  The Mongo
`$near` operator filters to shops within `maxDistance` meters of
`[longitude, latitude]` and orders the matches by that distance (`nearDist`
is the store's external distance function); `status: 'approved'` and the
optional `category` equality are part of the same query.  Each result then
gets a distance computed by `LocationService.calculateDistance` (geolib,
external, the `calcDist` parameter), rounded per the source. -/
def findNearbyShops (db : List MShop)
    (nearDist : ℚ → ℚ → MShop → ℚ) (calcDist : ℚ → ℚ → ℚ → ℚ → ℚ)
    (latitude longitude : ℚ) (maxDistance : ℚ := 5000)
    (category : Option String := none) : List ShopWithDistance :=
  let nd := fun s => nearDist longitude latitude s
  let candidates := db.filter (fun s =>
    decide (nd s ≤ maxDistance) && s.status == ShopStatus.approved &&
    (match category with
     | some c => s.category == c
     | none => true))
  (sortByKey nd candidates).map (fun shop =>
    let distance := calcDist latitude longitude shop.locationLat shop.locationLng
    { shop := shop
      distanceMeters := jsRound distance
      distanceKmTenths := jsRound (distance / 100) })

/-- `parseInt` applied to a number: truncation toward zero. -/
def jsParseInt (x : ℚ) : Int :=
  x.num.tdiv (x.den : Int)

/-- The query string of `GET /api/shops/nearby` with each parameter already
parsed to a number when present and syntactically numeric.  The validators
read `lat`/`lng`; the controller reads `latitude`/`longitude`. -/
structure NearbyQuery where
  lat : Option ℚ
  lng : Option ℚ
  latitude : Option ℚ
  longitude : Option ℚ
  radius : Option ℚ
  limit : Option ℚ
deriving DecidableEq, Repr

/-- Embedding of `nearbyShopsValidation` (`validation.middleware.js`): the
list of validation error messages the express-validator chain records.
`query('lat').isFloat()` fails when the parameter is absent;
`query('radius').optional().isFloat(\x7b min: 0 \x7d)` fails only when the
parameter is present and below 0; `query('limit').optional().isInt(\x7b min:
1, max: 50 \x7d)` fails when present and not an integer in `[1, 50]`. -/
def nearbyShopsValidation (q : NearbyQuery) : List String :=
  (if q.lat.isNone then ["Latitude is required"] else []) ++
  (if q.lng.isNone then ["Longitude is required"] else []) ++
  (match q.radius with
   | some r => if r < 0 then ["Radius must be a positive number"] else []
   | none => []) ++
  (match q.limit with
   | some l => if l.den = 1 ∧ 1 ≤ l ∧ l ≤ 50 then [] else ["Limit must be between 1 and 50"]
   | none => [])

/-- The JSON response of the nearby route, reduced to the fields set by
`shop.controller.js`. -/
structure NearbyResponse where
  status : Nat
  success : Bool
  count : Nat
  data : List ShopWithDistance
deriving DecidableEq, Repr

/-- Embedding of `getNearbyShops` (`shop.controller.js`): destructures
`latitude`, `longitude`, `radius = 5`, `limit = 20` from the query, rejects
with 400 only when `latitude` or `longitude` is missing, then calls
`shopService.findNearbyShops(parseFloat(latitude), parseFloat(longitude),
parseFloat(radius), parseInt(limit))`.  The fourth argument of the service
method is `category`, so the parsed limit is passed as the category filter;
Mongoose casts it to a string for the comparison with the string-typed
`category` field, and `if (category)` skips the filter when the number is
falsy (0). -/
def getNearbyShops (db : List MShop)
    (nearDist : ℚ → ℚ → MShop → ℚ) (calcDist : ℚ → ℚ → ℚ → ℚ → ℚ)
    (q : NearbyQuery) : NearbyResponse :=
  match q.latitude, q.longitude with
  | some la, some lo =>
      let radius := q.radius.getD 5
      let lim := jsParseInt (q.limit.getD 20)
      let shops := findNearbyShops db nearDist calcDist la lo radius
        (if lim = 0 then none else some (toString lim))
      { status := 200, success := true, count := shops.length, data := shops }
  | _, _ => { status := 400, success := false, count := 0, data := [] }

/-- The wiring of `GET /shops/nearby` in `shop.routes.js`: the validation
chain runs first and records its errors, then the controller runs.  The
controller never consults `validationResult`, so the recorded errors do not
influence the response; the pair returned here exposes both. -/
def nearbyRoute (db : List MShop)
    (nearDist : ℚ → ℚ → MShop → ℚ) (calcDist : ℚ → ℚ → ℚ → ℚ → ℚ)
    (q : NearbyQuery) : List String × NearbyResponse :=
  (nearbyShopsValidation q, getNearbyShops db nearDist calcDist q)

/-- JavaScript truthiness of a possibly-absent string: `undefined` and the
empty string are falsy. -/
def jsFalsyS (o : Option String) : Bool :=
  match o with
  | none => true
  | some s => s == ""

/-- The regex `^\+?[0-9]\x7b10,15\x7d$` of `isValidPhone`
(`utils/validators.js`): an optional leading `+` followed by 10 to 15
digits. -/
def isValidPhone (s : String) : Bool :=
  let cs := s.data
  let ds := match cs with
    | '+' :: rest => rest
    | _ => cs
  decide (10 ≤ ds.length) && decide (ds.length ≤ 15) && ds.all Char.isDigit

/-- The length of `s.trim()` (JavaScript): the number of characters left
after stripping leading and trailing whitespace. -/
def trimmedLength (s : String) : Nat :=
  (((s.data.dropWhile Char.isWhitespace).reverse.dropWhile Char.isWhitespace).reverse).length

/-- The request body of shop creation as `ShopService.createShop` receives
it; absent fields are `none`.  `operatingHours` is an opaque object whose
`typeof` check cannot fail in this typed embedding. -/
structure ShopData where
  name : Option String
  description : Option String
  address : Option String
  latitude : Option ℚ
  longitude : Option ℚ
  category : Option String
  contactPhone : Option String
  whatsappNumber : Option String
  bannerImage : Option String
  operatingHours : Option String
deriving DecidableEq, Repr

/-- Embedding of `validateShopData` (`utils/validators.js`): the list of
error messages, in source order.  A field is "missing" when it is falsy
(absent or an empty string). -/
def validateShopData (d : ShopData) : List String :=
  (if jsFalsyS d.name || decide (trimmedLength (d.name.getD "") < 3) then
    ["Shop name must be at least 3 characters long"] else []) ++
  (if jsFalsyS d.address || decide (trimmedLength (d.address.getD "") < 5) then
    ["Shop address must be at least 5 characters long"] else []) ++
  (if jsFalsyS d.contactPhone || !isValidPhone (d.contactPhone.getD "") then
    ["Valid contact phone number is required"] else []) ++
  (if jsFalsyS d.category then ["Shop category is required"] else []) ++
  (if d.latitude.isNone || d.longitude.isNone then
    ["Valid shop coordinates are required"] else []) ++
  (match d.description with
   | some s => if s ≠ "" ∧ 500 < s.data.length then
       ["Shop description must be a string less than 500 characters"] else []
   | none => []) ++
  (match d.whatsappNumber with
   | some s => if s ≠ "" ∧ isValidPhone s = false then
       ["Invalid WhatsApp number format"] else []
   | none => [])

/-- Embedding of `ShopService.createShop(shopData, ownerId)`
(`shop.service.js`).  `upload` is the external `S3Service.uploadImage`
(base64 image to URL); `newId` is the identifier Mongo would mint for the
new document.  On success the returned pair is the created shop and the
collection with the shop saved; every thrown message is wrapped in
`Failed to create shop: ...` by the catch block (`JSON.stringify` of the
error object is modelled as the comma-joined error list). -/
def createShop (store : List MShop) (upload : String → String) (newId : Nat)
    (shopData : ShopData) (ownerId : Nat) : Except String (MShop × List MShop) :=
  let errors := validateShopData shopData
  if errors ≠ [] then
    Except.error ("Failed to create shop: Invalid shop data: " ++ String.intercalate ", " errors)
  else if store.any (fun s => s.owner == ownerId) then
    Except.error "Failed to create shop: User already has a registered shop"
  else
    let bannerUrl := match shopData.bannerImage with
      | some b => if b == "" then none else some (upload b)
      | none => none
    let contact := shopData.contactPhone.getD ""
    let shop : MShop :=
      { id := newId
        name := shopData.name.getD ""
        description := shopData.description
        address := shopData.address.getD ""
        locationLng := shopData.longitude.getD 0
        locationLat := shopData.latitude.getD 0
        category := shopData.category.getD ""
        contactPhone := contact
        whatsappNumber := match shopData.whatsappNumber with
          | some w => if w == "" then contact else w
          | none => contact
        bannerImage := bannerUrl
        owner := ownerId
        status := ShopStatus.pending }
    Except.ok (shop, shop :: store)

/-- JavaScript `updateData.f !== shop.f` where `updateData.f` may be
`undefined` and `shop.f` is a string: an absent field is strictly unequal
to any string. -/
def jsNeqS (o : Option String) (v : String) : Bool :=
  match o with
  | none => true
  | some x => x != v

/-- Same strict inequality against a number field. -/
def jsNeqQ (o : Option ℚ) (v : ℚ) : Bool :=
  match o with
  | none => true
  | some x => x != v

/-- The update payload of `ShopService.updateShop`; absent keys are `none`.
`location` holds the possibly-`undefined` coordinate entries the code writes
into `coordinates: [updateData.longitude, updateData.latitude]`; `status`
starts as `none` and is set by the service itself when re-approval is
required. -/
structure UpdateData where
  name : Option String
  category : Option String
  address : Option String
  description : Option String
  latitude : Option ℚ
  longitude : Option ℚ
  whatsappNumber : Option String
  contactPhone : Option String
  bannerImage : Option String
  location : Option (Option ℚ × Option ℚ)
  status : Option ShopStatus
deriving DecidableEq, Repr

/-- Embedding of `ShopService.updateShop(shopId, updateData, ownerId)`
(`shop.service.js`): lookup and ownership check, banner re-upload when a new
banner is supplied, location rebuild when the address changed, then the
re-approval rule — `criticalFieldsChanged` is the disjunction of the strict
inequalities `updateData.name !== shop.name`, `updateData.category !==
shop.category`, `updateData.address !== shop.address` (each `true` when the
update omits the field), and when it holds on an approved shop,
`updateData.status` is set to `'pending'`.  `findByIdAndUpdate` applies
`$set` of the present fields and returns the new document. -/
def updateShop (store : List MShop) (upload : String → String) (shopId : Nat)
    (u : UpdateData) (ownerId : Nat) : Except String (MShop × List MShop) :=
  match store.find? (fun s => s.id == shopId) with
  | none => Except.error "Failed to update shop: Shop not found"
  | some shop =>
    if shop.owner ≠ ownerId then
      Except.error "Failed to update shop: Unauthorized: You do not own this shop"
    else
      let u1 := match u.bannerImage with
        | some b =>
            if b != "" && some b != shop.bannerImage then
              { u with bannerImage := some (upload b) }
            else u
        | none => u
      let u2 := match u1.address with
        | some a =>
            if a != "" &&
               (a != shop.address || jsNeqQ u1.latitude shop.locationLat ||
                jsNeqQ u1.longitude shop.locationLng) then
              { u1 with location := some (u1.longitude, u1.latitude) }
            else u1
        | none => u1
      let criticalFieldsChanged :=
        jsNeqS u2.name shop.name || jsNeqS u2.category shop.category ||
        jsNeqS u2.address shop.address
      let u3 :=
        if criticalFieldsChanged && shop.status == ShopStatus.approved then
          { u2 with status := some ShopStatus.pending }
        else u2
      let updated : MShop :=
        { id := shop.id
          name := u3.name.getD shop.name
          description := match u3.description with
            | some d => some d
            | none => shop.description
          address := u3.address.getD shop.address
          locationLng := match u3.location with
            | some (lngOpt, _) => lngOpt.getD shop.locationLng
            | none => shop.locationLng
          locationLat := match u3.location with
            | some (_, latOpt) => latOpt.getD shop.locationLat
            | none => shop.locationLat
          category := u3.category.getD shop.category
          contactPhone := u3.contactPhone.getD shop.contactPhone
          whatsappNumber := u3.whatsappNumber.getD shop.whatsappNumber
          bannerImage := match u3.bannerImage with
            | some b => some b
            | none => shop.bannerImage
          owner := shop.owner
          status := u3.status.getD shop.status }
      Except.ok (updated, store.map (fun s => if s.id == shopId then updated else s))

/-- `Math.atan2(y, x)` over the reals (the exact function the IEEE
operation approximates, ignoring signed zeros). -/
noncomputable def atan2 (y x : ℝ) : ℝ :=
  if 0 < x then Real.arctan (y / x)
  else if x < 0 then
    (if 0 ≤ y then Real.arctan (y / x) + Real.pi else Real.arctan (y / x) - Real.pi)
  else
    (if 0 < y then Real.pi / 2 else if y < 0 then -(Real.pi / 2) else 0)

/-- Embedding of `haversineDistance(lat1, lon1, lat2, lon2)`
(`src/utils/geo.js`), JavaScript numbers modelled as reals: degrees to
radians, the haversine term `a`, `c = 2 * atan2(sqrt(a), sqrt(1 - a))`,
result scaled by the 6371 km Earth radius. -/
noncomputable def haversineDistance (lat1 lon1 lat2 lon2 : ℝ) : ℝ :=
  let lat1Rad := lat1 * (Real.pi / 180)
  let lat2Rad := lat2 * (Real.pi / 180)
  let lon1Rad := lon1 * (Real.pi / 180)
  let lon2Rad := lon2 * (Real.pi / 180)
  let dLat := lat2Rad - lat1Rad
  let dLon := lon2Rad - lon1Rad
  let a := Real.sin (dLat / 2) * Real.sin (dLat / 2) +
    Real.cos lat1Rad * Real.cos lat2Rad * Real.sin (dLon / 2) * Real.sin (dLon / 2)
  let c := 2 * atan2 (Real.sqrt a) (Real.sqrt (1 - a))
  6371 * c

/-- The record `calculateBoundingBox` returns, in degrees. -/
structure BoundingBox where
  minLat : ℝ
  maxLat : ℝ
  minLon : ℝ
  maxLon : ℝ

section BoundingBoxDef

open Classical

/-- Embedding of `calculateBoundingBox(latitude, longitude, radiusInKm)`
(`src/utils/geo.js`): angular radius `radiusInKm / 6371`; in the ordinary
branch the longitude half-span is `asin(sin(d) / cos(lat))` with a
`±2π` wrap fix, and near a pole the latitudes are clamped to `±π/2` while
the longitudes cover the full range; everything is converted back to
degrees. -/
noncomputable def calculateBoundingBox (latitude longitude radiusInKm : ℝ) : BoundingBox :=
  let lat := latitude * (Real.pi / 180)
  let lon := longitude * (Real.pi / 180)
  let angularDistance := radiusInKm / 6371
  let minLat := lat - angularDistance
  let maxLat := lat + angularDistance
  if -(Real.pi / 2) < minLat ∧ maxLat < Real.pi / 2 then
    let deltaLon := Real.arcsin (Real.sin angularDistance / Real.cos lat)
    let minLon0 := lon - deltaLon
    let maxLon0 := lon + deltaLon
    let minLon := if minLon0 < -Real.pi then minLon0 + 2 * Real.pi else minLon0
    let maxLon := if Real.pi < maxLon0 then maxLon0 - 2 * Real.pi else maxLon0
    { minLat := minLat * (180 / Real.pi)
      maxLat := maxLat * (180 / Real.pi)
      minLon := minLon * (180 / Real.pi)
      maxLon := maxLon * (180 / Real.pi) }
  else
    { minLat := max minLat (-(Real.pi / 2)) * (180 / Real.pi)
      maxLat := min maxLat (Real.pi / 2) * (180 / Real.pi)
      minLon := -Real.pi * (180 / Real.pi)
      maxLon := Real.pi * (180 / Real.pi) }

end BoundingBoxDef

/-- The latitude band `[lat - angularDistance, lat + angularDistance]`
reaches a pole: the negation of the guard of the ordinary branch of
`calculateBoundingBox`. -/
def poleCase (latitude radiusInKm : ℝ) : Prop :=
  ¬(-(Real.pi / 2) < latitude * (Real.pi / 180) - radiusInKm / 6371 ∧
    latitude * (Real.pi / 180) + radiusInKm / 6371 < Real.pi / 2)

/-- Each owner has at most one shop in the collection: the invariant
`ShopService.createShop` maintains through its duplicate-owner check. -/
def atMostOneShopPerOwner (store : List MShop) : Prop :=
  ∀ u : Nat, (store.filter (fun s => s.owner == u)).length ≤ 1

lemma mem_sortByKey {β : Type} (key : β → ℚ) (l : List β) (x : β) :
    x ∈ sortByKey key l ↔ x ∈ l := by
  unfold sortByKey
  exact (List.perm_insertionSort _ _).mem_iff

lemma sortByKey_sorted {β : Type} (key : β → ℚ) (l : List β) :
    (sortByKey key l).Pairwise (fun a b => key a ≤ key b) := by
  letI : IsTotal β (fun a b => key a ≤ key b) := ⟨fun a b => le_total (key a) (key b)⟩
  letI : IsTrans β (fun a b => key a ≤ key b) := ⟨fun _ _ _ h1 h2 => le_trans h1 h2⟩
  unfold sortByKey
  exact List.sorted_insertionSort _ l



/-- Unfolding equation of the sort model: sorting a cons inserts the head
into the sorted tail. -/
lemma sortByKey_cons {β : Type} (key : β → ℚ) (x : β) (l : List β) :
    sortByKey key (x :: l) = insertByKey key x (sortByKey key l) := rfl

/-- Inserting an element whose key is at most every key of `l2` into
`l1 ++ l2` only touches the `l1` part. -/
lemma insertByKey_append_right {β : Type} (key : β → ℚ) (x : β) (l1 l2 : List β)
    (h : ∀ y ∈ l2, key x ≤ key y) :
    insertByKey key x (l1 ++ l2) = insertByKey key x l1 ++ l2 := by
  induction l1 with
  | nil =>
    cases l2 with
    | nil => rfl
    | cons b bs =>
      simp only [insertByKey, List.nil_append, List.orderedInsert]
      rw [if_pos (h b (List.mem_cons_self b bs))]
      rfl
  | cons c cs ih =>
    simp only [insertByKey, List.cons_append, List.orderedInsert, List.append_eq] at ih ⊢
    by_cases hc : key x ≤ key c
    · rw [if_pos hc, if_pos hc]
      rfl
    · rw [if_neg hc, if_neg hc, ih]
      rfl

/-- Inserting an element whose key exceeds every key of `l1` into
`l1 ++ l2` passes over the whole of `l1`. -/
lemma insertByKey_append_left {β : Type} (key : β → ℚ) (x : β) (l1 l2 : List β)
    (h : ∀ y ∈ l1, ¬ key x ≤ key y) :
    insertByKey key x (l1 ++ l2) = l1 ++ insertByKey key x l2 := by
  induction l1 with
  | nil => rfl
  | cons c cs ih =>
    simp only [insertByKey, List.cons_append, List.orderedInsert, List.append_eq] at ih ⊢
    rw [if_neg (h c (List.mem_cons_self c cs))]
    rw [ih (fun y hy => h y (List.mem_cons_of_mem c hy))]

/-- Splitting a sorted radius filter: the rows within the larger radius
`r2`, sorted, are exactly the sorted rows within `r1` followed by the
sorted rows whose key lies in `(r1, r2]` - every row of the second block
has a strictly larger key than every row of the first. -/
lemma sortByKey_filter_split {β : Type} (key : β → ℚ) (p : β → Bool) {r1 r2 : ℚ}
    (h : r1 ≤ r2) (l : List β) :
    sortByKey key (l.filter fun a => p a && decide (key a ≤ r2)) =
    sortByKey key (l.filter fun a => p a && decide (key a ≤ r1)) ++
    sortByKey key (l.filter fun a => (p a && decide (r1 < key a)) && decide (key a ≤ r2)) := by
  induction l with
  | nil => rfl
  | cons x xs ih =>
    cases hp : p x with
    | false => simpa [List.filter_cons, hp] using ih
    | true =>
      by_cases h1 : key x ≤ r1
      · have h2 : key x ≤ r2 := le_trans h1 h
        have hm : ¬ r1 < key x := not_lt.mpr h1
        have e2 : (x :: xs).filter (fun a => p a && decide (key a ≤ r2)) =
            x :: xs.filter (fun a => p a && decide (key a ≤ r2)) := by
          simp [List.filter_cons, hp, h2]
        have e1 : (x :: xs).filter (fun a => p a && decide (key a ≤ r1)) =
            x :: xs.filter (fun a => p a && decide (key a ≤ r1)) := by
          simp [List.filter_cons, hp, h1]
        have em : (x :: xs).filter (fun a => (p a && decide (r1 < key a)) && decide (key a ≤ r2)) =
            xs.filter (fun a => (p a && decide (r1 < key a)) && decide (key a ≤ r2)) := by
          simp [List.filter_cons, hm]
        rw [e2, e1, em, sortByKey_cons, sortByKey_cons, ih]
        refine insertByKey_append_right key x _ _ (fun y hy => ?_)
        rw [mem_sortByKey] at hy
        have hmem := (List.mem_filter.mp hy).2
        simp only [Bool.and_eq_true, decide_eq_true_eq] at hmem
        exact le_of_lt (lt_of_le_of_lt h1 hmem.1.2)
      · by_cases h2 : key x ≤ r2
        · have hm : r1 < key x := not_le.mp h1
          have e2 : (x :: xs).filter (fun a => p a && decide (key a ≤ r2)) =
              x :: xs.filter (fun a => p a && decide (key a ≤ r2)) := by
            simp [List.filter_cons, hp, h2]
          have e1 : (x :: xs).filter (fun a => p a && decide (key a ≤ r1)) =
              xs.filter (fun a => p a && decide (key a ≤ r1)) := by
            simp [List.filter_cons, h1]
          have em : (x :: xs).filter (fun a => (p a && decide (r1 < key a)) && decide (key a ≤ r2)) =
              x :: xs.filter (fun a => (p a && decide (r1 < key a)) && decide (key a ≤ r2)) := by
            simp [List.filter_cons, hp, hm, h2]
          rw [e2, e1, em, sortByKey_cons, sortByKey_cons, ih]
          refine insertByKey_append_left key x _ _ (fun y hy => ?_)
          rw [mem_sortByKey] at hy
          have hmem := (List.mem_filter.mp hy).2
          simp only [Bool.and_eq_true, decide_eq_true_eq] at hmem
          exact not_le.mpr (lt_of_le_of_lt hmem.2 hm)
        · have e2 : (x :: xs).filter (fun a => p a && decide (key a ≤ r2)) =
              xs.filter (fun a => p a && decide (key a ≤ r2)) := by
            simp [List.filter_cons, h2]
          have e1 : (x :: xs).filter (fun a => p a && decide (key a ≤ r1)) =
              xs.filter (fun a => p a && decide (key a ≤ r1)) := by
            simp [List.filter_cons, h1]
          have em : (x :: xs).filter (fun a => (p a && decide (r1 < key a)) && decide (key a ≤ r2)) =
              xs.filter (fun a => (p a && decide (r1 < key a)) && decide (key a ≤ r2)) := by
            simp [List.filter_cons, h2]
          rw [e2, e1, em, ih]

/-- C1: every shop returned by the proximity search (`Shop.findNearby` on
the SQL path, `ShopService.findNearbyShops` on the Mongo path) has approval
state `approved`; no shop whose state is pending or rejected ever appears
in the result of any query. -/
theorem claim_C1_only_approved_returned :
    (∀ (db : List PShop) (dist : ℚ → ℚ → PShop → ℚ) (lat lng radius : ℚ) (lim : Nat)
      (p : PShop × ℚ), p ∈ Shop.findNearby db dist lat lng radius lim →
      p.1.is_approved = true ∧ p.1.status = ShopStatus.approved) ∧
    (∀ (db : List MShop) (nearDist : ℚ → ℚ → MShop → ℚ) (calcDist : ℚ → ℚ → ℚ → ℚ → ℚ)
      (latitude longitude maxDistance : ℚ) (category : Option String)
      (w : ShopWithDistance),
      w ∈ findNearbyShops db nearDist calcDist latitude longitude maxDistance category →
      w.shop.status = ShopStatus.approved) := by
  constructor
  · intro db dist lat lng radius lim p hp
    unfold Shop.findNearby at hp
    have h1 := List.mem_of_mem_take hp
    rw [mem_sortByKey] at h1
    have h2 := List.mem_filter.mp h1
    have h3 := h2.2
    simp [approvedRow] at h3
    exact ⟨h3.1.1, h3.1.2⟩
  · intro db nearDist calcDist latitude longitude maxDistance category w hw
    unfold findNearbyShops at hw
    simp only [List.mem_map] at hw
    obtain ⟨shop, hs, rfl⟩ := hw
    rw [mem_sortByKey] at hs
    have h2 := (List.mem_filter.mp hs).2
    simp only [Bool.and_eq_true, beq_iff_eq] at h2
    exact h2.1.2

/-- Witness for C1 at a concrete one-shop database. -/
theorem claim_C1_witness :
    ((⟨1, 1, "A", none, "addr1", "w", 0, 0, true, ShopStatus.approved⟩, (0 : ℚ)) ∈
      Shop.findNearby [⟨1, 1, "A", none, "addr1", "w", 0, 0, true, ShopStatus.approved⟩]
        (fun _ _ _ => 0) 0 0 100 10) ∧
    ((⟨1, 1, "A", none, "addr1", "w", 0, 0, true, ShopStatus.approved⟩ : PShop).is_approved = true ∧
      (⟨1, 1, "A", none, "addr1", "w", 0, 0, true, ShopStatus.approved⟩ : PShop).status = ShopStatus.approved) :=
  ⟨by decide,
    claim_C1_only_approved_returned.1
      [⟨1, 1, "A", none, "addr1", "w", 0, 0, true, ShopStatus.approved⟩]
      (fun _ _ _ => 0) 0 0 100 10
      (⟨1, 1, "A", none, "addr1", "w", 0, 0, true, ShopStatus.approved⟩, (0 : ℚ))
      (by decide)⟩

/-- C2, evaluated at the failing input: on an approved shop, an owner edit
whose payload contains only a new banner image is nonetheless flagged as a
critical change (the strict comparisons see `undefined` for the omitted
name, category and address) and the shop reverts to pending, contradicting
the claim and the code's own comment; a genuine name/category/address edit
reverts the state as the claim says. -/
theorem claim_C2_update_status :
    ((updateShop
        [⟨1, "Fresh Mart", none, "1 Main St", 0, 0, "grocery", "1234567890",
          "1234567890", some "banner1.png", 7, ShopStatus.approved⟩]
        (fun s => s) 1
        ⟨none, none, none, none, none, none, none, none, some "banner2.png", none, none⟩
        7).toOption.map (fun r => r.1.status) = some ShopStatus.pending) ∧
    ((updateShop
        [⟨1, "Fresh Mart", none, "1 Main St", 0, 0, "grocery", "1234567890",
          "1234567890", some "banner1.png", 7, ShopStatus.approved⟩]
        (fun s => s) 1
        ⟨some "Fresh Mart 2", some "grocery", some "1 Main St", none, none, none,
          none, none, none, none, none⟩
        7).toOption.map (fun r => r.1.status) = some ShopStatus.pending) := by
  constructor
  · decide
  · decide

/-- C3 counterexample: with one approved shop 100 meters away, a request
without a radius parameter returns nothing, while the same request with
radius 5000 returns the shop - so the absent-radius request does not use a
5000 default consistently: the route handler substitutes 5, which the
store interprets as 5 meters. -/
theorem claim_C3_counterexample :
    (getNearbyShops
        [⟨1, "A", none, "addr", 0, 0, "g", "1234567890", "1234567890", none, 7,
          ShopStatus.approved⟩]
        (fun _ _ _ => 100) (fun _ _ _ _ => 100)
        ⟨some 1, some 2, some 1, some 2, none, some 0⟩).data = [] ∧
    (getNearbyShops
        [⟨1, "A", none, "addr", 0, 0, "g", "1234567890", "1234567890", none, 7,
          ShopStatus.approved⟩]
        (fun _ _ _ => 100) (fun _ _ _ _ => 100)
        ⟨some 1, some 2, some 1, some 2, some 5000, some 0⟩).data ≠ [] := by
  constructor
  · decide
  · decide

/-- C3 amended: `ShopService.findNearbyShops` and `Shop.findNearby` do
default their radius to 5000 (meters) when called without one, but the
route handler `getNearbyShops` defaults the absent `radius` query parameter
to 5 and forwards it unconverted, so an HTTP request without a radius
searches within 5, not 5000; the unit is not interpreted consistently
across the layers. -/
theorem claim_C3_amended_thm :
    (∀ (db : List MShop) (nd : ℚ → ℚ → MShop → ℚ) (cd : ℚ → ℚ → ℚ → ℚ → ℚ) (la lo : ℚ),
      findNearbyShops db nd cd la lo = findNearbyShops db nd cd la lo 5000) ∧
    (∀ (db : List PShop) (d : ℚ → ℚ → PShop → ℚ) (lat lng : ℚ),
      Shop.findNearby db d lat lng = Shop.findNearby db d lat lng 5000) ∧
    (∀ (db : List MShop) (nd : ℚ → ℚ → MShop → ℚ) (cd : ℚ → ℚ → ℚ → ℚ → ℚ)
      (q : NearbyQuery), q.radius = none →
      getNearbyShops db nd cd q = getNearbyShops db nd cd { q with radius := some 5 }) := by
  refine ⟨fun _ _ _ _ _ => rfl, fun _ _ _ _ => rfl, ?_⟩
  intro db nd cd q h
  cases q
  simp_all [getNearbyShops]

/-- Witness for the amended C3 at a concrete radius-free query. -/
theorem claim_C3_amended_w :
    getNearbyShops [] (fun _ _ _ => 0) (fun _ _ _ _ => 0)
      ⟨some 1, some 2, some 1, some 2, none, some 0⟩ =
    getNearbyShops [] (fun _ _ _ => 0) (fun _ _ _ _ => 0)
      ⟨some 1, some 2, some 1, some 2, some 5, some 0⟩ :=
  claim_C3_amended_thm.2.2 [] (fun _ _ _ => 0) (fun _ _ _ _ => 0)
    ⟨some 1, some 2, some 1, some 2, none, some 0⟩ rfl

/-- C4 counterexample: a nearby request with positive limit 1 over two
approved in-range shops of category "1" returns 2 results - the limit is
forwarded as the service's category filter, not a count bound - and
`Shop.findNearby` called with limit 1000 over 51 approved in-range shops
returns 51 rows, so no hard ceiling of 50 is applied either. -/
theorem claim_C4_counterexample :
    ((getNearbyShops
        [⟨1, "A", none, "a1", 0, 0, "1", "1234567890", "1234567890", none, 1,
          ShopStatus.approved⟩,
         ⟨2, "B", none, "a2", 0, 0, "1", "1234567890", "1234567890", none, 2,
          ShopStatus.approved⟩]
        (fun _ _ _ => 0) (fun _ _ _ _ => 0)
        ⟨some 1, some 2, some 1, some 2, some 5000, some 1⟩).data.length = 2 ∧
      ¬(2 ≤ 1)) ∧
    ((Shop.findNearby
        ((List.range 51).map (fun i =>
          ⟨i, i, "s", none, "a", "w", 0, 0, true, ShopStatus.approved⟩))
        (fun _ _ _ => 0) 0 0 100 1000).length = 51 ∧
      ¬(51 ≤ 50)) := by
  refine ⟨⟨?_, by decide⟩, ⟨?_, by decide⟩⟩
  · decide
  · decide

/-- C4 amended: the SQL layer `Shop.findNearby` does apply its limit
argument, so its result has length at most the requested limit; but there
is no 50-row ceiling in the search, and on the HTTP path the limit is not
a count bound at all (it lands in the category parameter of
`ShopService.findNearbyShops`). -/
theorem claim_C4_amended_thm :
    ∀ (db : List PShop) (d : ℚ → ℚ → PShop → ℚ) (lat lng radius : ℚ) (lim : Nat),
      (Shop.findNearby db d lat lng radius lim).length ≤ lim := by
  intro db d lat lng radius lim
  unfold Shop.findNearby
  exact List.length_take_le _ _

/-- C5 counterexample: a radius-0 request produces no validation error
(`isFloat(min 0)` is inclusive) and is served with status 200; a
negative-radius request and a limit-1000 request do produce validation
errors, but are also served with status 200 because `getNearbyShops` never
consults the validation result - and the limit validator rejects rather
than clamps. -/
theorem claim_C5_counterexample :
    ((nearbyRoute [] (fun _ _ _ => 0) (fun _ _ _ _ => 0)
        ⟨some 1, some 2, some 1, some 2, some 0, none⟩).1 = [] ∧
      (nearbyRoute [] (fun _ _ _ => 0) (fun _ _ _ _ => 0)
        ⟨some 1, some 2, some 1, some 2, some 0, none⟩).2.status = 200) ∧
    ((nearbyRoute [] (fun _ _ _ => 0) (fun _ _ _ _ => 0)
        ⟨some 1, some 2, some 1, some 2, some (-5), none⟩).1 =
        ["Radius must be a positive number"] ∧
      (nearbyRoute [] (fun _ _ _ => 0) (fun _ _ _ _ => 0)
        ⟨some 1, some 2, some 1, some 2, some (-5), none⟩).2.status = 200) ∧
    ((nearbyRoute [] (fun _ _ _ => 0) (fun _ _ _ _ => 0)
        ⟨some 1, some 2, some 1, some 2, none, some 1000⟩).1 =
        ["Limit must be between 1 and 50"] ∧
      (nearbyRoute [] (fun _ _ _ => 0) (fun _ _ _ _ => 0)
        ⟨some 1, some 2, some 1, some 2, none, some 1000⟩).2.status = 200) := by
  refine ⟨⟨?_, ?_⟩, ⟨?_, ?_⟩, ⟨?_, ?_⟩⟩ <;> decide

/-- C5 amended: the nearby route responds 400 exactly when `latitude` or
`longitude` is missing; the radius validator accepts 0 and flags only
negative radii; the limit validator flags any limit above 50 (rejection,
not clamping); and none of the recorded validation errors affect the
response. -/
theorem claim_C5_amended_thm :
    ∀ (db : List MShop) (nd : ℚ → ℚ → MShop → ℚ) (cd : ℚ → ℚ → ℚ → ℚ → ℚ)
      (q : NearbyQuery),
      ((nearbyRoute db nd cd q).2.status = 400 ↔
        (q.latitude = none ∨ q.longitude = none)) ∧
      (q.radius = some 0 →
        "Radius must be a positive number" ∉ (nearbyRoute db nd cd q).1) ∧
      (∀ r : ℚ, q.radius = some r → r < 0 →
        "Radius must be a positive number" ∈ (nearbyRoute db nd cd q).1) ∧
      (∀ l : ℚ, q.limit = some l → 50 < l →
        "Limit must be between 1 and 50" ∈ (nearbyRoute db nd cd q).1) := by
  intro db nd cd q
  obtain ⟨la, ln, lat, lon, rad, lim⟩ := q
  refine ⟨?_, ?_, ?_, ?_⟩
  · cases lat <;> cases lon <;> simp [nearbyRoute, getNearbyShops]
  · intro h
    subst h
    simp only [nearbyRoute, nearbyShopsValidation]
    cases la <;> cases ln <;> cases lim <;>
      simp_all [List.mem_append, String.ext_iff]
  · intro r h hr
    subst h
    simp only [nearbyRoute, nearbyShopsValidation]
    simp [hr]
  · intro l h hl
    subst h
    simp only [nearbyRoute, nearbyShopsValidation]
    have : ¬(l.den = 1 ∧ 1 ≤ l ∧ l ≤ 50) := by
      rintro ⟨-, -, h50⟩
      exact absurd hl (not_lt.mpr h50)
    simp [this]

/-- Witness for the amended C5 at a concrete negative-radius query. -/
theorem claim_C5_amended_w :
    "Radius must be a positive number" ∈
      (nearbyRoute [] (fun _ _ _ => 0) (fun _ _ _ _ => 0)
        ⟨some 1, some 2, some 1, some 2, some (-5), none⟩).1 :=
  (claim_C5_amended_thm [] (fun _ _ _ => 0) (fun _ _ _ _ => 0)
      ⟨some 1, some 2, some 1, some 2, some (-5), none⟩).2.2.1 (-5) rfl (by norm_num)

/-- C6 counterexample: two approved shops at the same distance 7 come back
in store order `[2, 1]` - `ORDER BY distance` has no identity tie-break,
so the result violates the distance-then-identity ordering the claim
requires. -/
theorem claim_C6_counterexample :
    ((Shop.findNearby
        [⟨2, 2, "B", none, "a2", "w", 0, 0, true, ShopStatus.approved⟩,
         ⟨1, 1, "A", none, "a1", "w", 0, 0, true, ShopStatus.approved⟩]
        (fun _ _ _ => 7) 0 0 100 10).map (fun p => p.1.id) = [2, 1]) ∧
    ((Shop.findNearby
        [⟨2, 2, "B", none, "a2", "w", 0, 0, true, ShopStatus.approved⟩,
         ⟨1, 1, "A", none, "a1", "w", 0, 0, true, ShopStatus.approved⟩]
        (fun _ _ _ => 7) 0 0 100 10).map Prod.snd = [7, 7]) ∧
    ¬ (Shop.findNearby
        [⟨2, 2, "B", none, "a2", "w", 0, 0, true, ShopStatus.approved⟩,
         ⟨1, 1, "A", none, "a1", "w", 0, 0, true, ShopStatus.approved⟩]
        (fun _ _ _ => 7) 0 0 100 10).Pairwise
        (fun a b => a.2 < b.2 ∨ (a.2 = b.2 ∧ a.1.id ≤ b.1.id)) := by
  refine ⟨by decide, by decide, ?_⟩
  decide

/-- C6 amended: the result of `Shop.findNearby` is sorted by non-decreasing
distance, and the result of `ShopService.findNearbyShops` is sorted by
non-decreasing store distance; shops at equal distance keep the order in
which the store returns them - no tie-break by shop identity is applied. -/
theorem claim_C6_amended_thm :
    (∀ (db : List PShop) (d : ℚ → ℚ → PShop → ℚ) (lat lng radius : ℚ) (lim : Nat),
      (Shop.findNearby db d lat lng radius lim).Pairwise (fun a b => a.2 ≤ b.2)) ∧
    (∀ (db : List MShop) (nd : ℚ → ℚ → MShop → ℚ) (cd : ℚ → ℚ → ℚ → ℚ → ℚ)
      (la lo md : ℚ) (cat : Option String),
      (findNearbyShops db nd cd la lo md cat).Pairwise
        (fun a b => nd lo la a.shop ≤ nd lo la b.shop)) := by
  constructor
  · intro db d lat lng radius lim
    unfold Shop.findNearby
    exact (sortByKey_sorted _ _).sublist (List.take_sublist _ _)
  · intro db nd cd la lo md cat
    unfold findNearbyShops
    rw [List.pairwise_map]
    exact sortByKey_sorted _ _

/-- C7: for a fixed origin, shop set and limit, every shop included in the
proximity-search result at radius `r1` is also included at any radius
`r2 >= r1`, on both the SQL path (`Shop.findNearby`, including its LIMIT)
and the Mongo path (`ShopService.findNearbyShops`). -/
theorem claim_C7_monotone :
    (∀ (db : List PShop) (d : ℚ → ℚ → PShop → ℚ) (lat lng r1 r2 : ℚ) (lim : Nat),
      r1 ≤ r2 → ∀ p ∈ Shop.findNearby db d lat lng r1 lim,
        p ∈ Shop.findNearby db d lat lng r2 lim) ∧
    (∀ (db : List MShop) (nd : ℚ → ℚ → MShop → ℚ) (cd : ℚ → ℚ → ℚ → ℚ → ℚ)
      (la lo r1 r2 : ℚ) (cat : Option String),
      r1 ≤ r2 → ∀ w ∈ findNearbyShops db nd cd la lo r1 cat,
        w ∈ findNearbyShops db nd cd la lo r2 cat) := by
  constructor
  · intro db d lat lng r1 r2 lim h p hp
    unfold Shop.findNearby at hp ⊢
    rw [sortByKey_filter_split Prod.snd approvedRow h]
    rw [List.take_append_eq_append_take]
    exact List.mem_append_left _ hp
  · intro db nd cd la lo r1 r2 cat h w hw
    unfold findNearbyShops at hw ⊢
    simp only [List.mem_map] at hw ⊢
    obtain ⟨s, hs, rfl⟩ := hw
    refine ⟨s, ?_, rfl⟩
    rw [mem_sortByKey] at hs ⊢
    rw [List.mem_filter] at hs ⊢
    refine ⟨hs.1, ?_⟩
    have h2 := hs.2
    simp only [Bool.and_eq_true, decide_eq_true_eq] at h2 ⊢
    exact ⟨⟨le_trans h2.1.1 h, h2.1.2⟩, h2.2⟩

/-- Witness for C7: a shop 50 meters out is returned at radius 60 and
still returned at radius 100. -/
theorem claim_C7_w :
    (60 : ℚ) ≤ 100 ∧
    ((⟨1, 1, "A", none, "a1", "w", 0, 0, true, ShopStatus.approved⟩, (50 : ℚ)) ∈
      Shop.findNearby [⟨1, 1, "A", none, "a1", "w", 0, 0, true, ShopStatus.approved⟩]
        (fun _ _ _ => 50) 0 0 60 10) ∧
    ((⟨1, 1, "A", none, "a1", "w", 0, 0, true, ShopStatus.approved⟩, (50 : ℚ)) ∈
      Shop.findNearby [⟨1, 1, "A", none, "a1", "w", 0, 0, true, ShopStatus.approved⟩]
        (fun _ _ _ => 50) 0 0 100 10) :=
  ⟨by norm_num, by decide,
    claim_C7_monotone.1 [⟨1, 1, "A", none, "a1", "w", 0, 0, true, ShopStatus.approved⟩]
      (fun _ _ _ => 50) 0 0 60 100 10 (by norm_num)
      (⟨1, 1, "A", none, "a1", "w", 0, 0, true, ShopStatus.approved⟩, (50 : ℚ))
      (by decide)⟩

/-- C8: `haversineDistance(A, A) = 0` for every coordinate `A`, and
`haversineDistance(A, B) = haversineDistance(B, A)` for every pair of
coordinates. -/
theorem claim_C8_haversine :
    ∀ lat1 lon1 lat2 lon2 : ℝ,
      haversineDistance lat1 lon1 lat1 lon1 = 0 ∧
      haversineDistance lat1 lon1 lat2 lon2 = haversineDistance lat2 lon2 lat1 lon1 := by
  intro lat1 lon1 lat2 lon2
  constructor
  · simp [haversineDistance, atan2, Real.arctan_zero]
  · simp only [haversineDistance]
    have esin : ∀ x y : ℝ, Real.sin ((x - y) / 2) = -Real.sin ((y - x) / 2) := by
      intro x y
      rw [show (x - y) / 2 = -((y - x) / 2) by ring, Real.sin_neg]
    have ha :
        Real.sin ((lat1 * (Real.pi / 180) - lat2 * (Real.pi / 180)) / 2) *
            Real.sin ((lat1 * (Real.pi / 180) - lat2 * (Real.pi / 180)) / 2) +
          Real.cos (lat2 * (Real.pi / 180)) * Real.cos (lat1 * (Real.pi / 180)) *
            Real.sin ((lon1 * (Real.pi / 180) - lon2 * (Real.pi / 180)) / 2) *
            Real.sin ((lon1 * (Real.pi / 180) - lon2 * (Real.pi / 180)) / 2) =
        Real.sin ((lat2 * (Real.pi / 180) - lat1 * (Real.pi / 180)) / 2) *
            Real.sin ((lat2 * (Real.pi / 180) - lat1 * (Real.pi / 180)) / 2) +
          Real.cos (lat1 * (Real.pi / 180)) * Real.cos (lat2 * (Real.pi / 180)) *
            Real.sin ((lon2 * (Real.pi / 180) - lon1 * (Real.pi / 180)) / 2) *
            Real.sin ((lon2 * (Real.pi / 180) - lon1 * (Real.pi / 180)) / 2) := by
      rw [esin (lat1 * (Real.pi / 180)) (lat2 * (Real.pi / 180)),
        esin (lon1 * (Real.pi / 180)) (lon2 * (Real.pi / 180))]
      ring
    rw [ha]

/-- C9: whenever the latitude band `[lat - angularDistance,
lat + angularDistance]` reaches a pole, `calculateBoundingBox` returns the
full longitude range `[-180, 180]` with latitudes clamped to `[-90, 90]`
(for any real origin latitude and nonnegative radius); for every other
origin it returns a finite longitude span centred on the origin - the
latitudes are the exact `latitude -+ angular` offsets and the longitudes
are `longitude -+ delta` for a single nonnegative half-span `delta`, up to
the source's 360-degree wrap correction. -/
theorem claim_C9_bounding_box :
    ∀ (latitude longitude r : ℝ), |latitude| ≤ 90 → 0 ≤ r →
      (poleCase latitude r →
        (calculateBoundingBox latitude longitude r).minLon = -180 ∧
        (calculateBoundingBox latitude longitude r).maxLon = 180 ∧
        -90 ≤ (calculateBoundingBox latitude longitude r).minLat ∧
        (calculateBoundingBox latitude longitude r).minLat ≤ 90 ∧
        -90 ≤ (calculateBoundingBox latitude longitude r).maxLat ∧
        (calculateBoundingBox latitude longitude r).maxLat ≤ 90) ∧
      (¬ poleCase latitude r →
        ∃ δ : ℝ, 0 ≤ δ ∧
          (calculateBoundingBox latitude longitude r).minLat =
            latitude - r / 6371 * (180 / Real.pi) ∧
          (calculateBoundingBox latitude longitude r).maxLat =
            latitude + r / 6371 * (180 / Real.pi) ∧
          ((calculateBoundingBox latitude longitude r).minLon = longitude - δ ∨
            (calculateBoundingBox latitude longitude r).minLon = longitude - δ + 360) ∧
          ((calculateBoundingBox latitude longitude r).maxLon = longitude + δ ∨
            (calculateBoundingBox latitude longitude r).maxLon = longitude + δ - 360)) := by
  intro latitude longitude r hlat hr
  have hπ : (0 : ℝ) < Real.pi := Real.pi_pos
  have hπ' : Real.pi ≠ 0 := ne_of_gt hπ
  have hlat1 : latitude ≤ 90 := (abs_le.mp hlat).2
  have hlat2 : -90 ≤ latitude := (abs_le.mp hlat).1
  have h0 : latitude * (Real.pi / 180) ≤ Real.pi / 2 := by nlinarith
  have h0' : -(Real.pi / 2) ≤ latitude * (Real.pi / 180) := by nlinarith
  constructor
  · intro hpole
    have hpole' : ¬(-(Real.pi / 2) < latitude * (Real.pi / 180) - r / 6371 ∧
        latitude * (Real.pi / 180) + r / 6371 < Real.pi / 2) := hpole
    have hbox : calculateBoundingBox latitude longitude r =
        { minLat := max (latitude * (Real.pi / 180) - r / 6371) (-(Real.pi / 2)) *
            (180 / Real.pi)
          maxLat := min (latitude * (Real.pi / 180) + r / 6371) (Real.pi / 2) *
            (180 / Real.pi)
          minLon := -Real.pi * (180 / Real.pi)
          maxLon := Real.pi * (180 / Real.pi) } := by
      simp only [calculateBoundingBox]
      rw [if_neg hpole']
    rw [hbox]
    have epi : Real.pi * (180 / Real.pi) = 180 := by
      rw [mul_comm]
      exact div_mul_cancel₀ 180 hπ'
    have e90 : -(Real.pi / 2) * (180 / Real.pi) = -90 := by
      rw [show -(Real.pi / 2) * (180 / Real.pi) = -(Real.pi * (180 / Real.pi)) / 2 by ring, epi]
      norm_num
    have e90' : Real.pi / 2 * (180 / Real.pi) = 90 := by
      rw [show Real.pi / 2 * (180 / Real.pi) = Real.pi * (180 / Real.pi) / 2 by ring, epi]
      norm_num
    have hM1 : -(Real.pi / 2) ≤ max (latitude * (Real.pi / 180) - r / 6371) (-(Real.pi / 2)) :=
      le_max_right _ _
    have hM2 : max (latitude * (Real.pi / 180) - r / 6371) (-(Real.pi / 2)) ≤ Real.pi / 2 :=
      max_le (by linarith) (by linarith)
    have hm1 : -(Real.pi / 2) ≤ min (latitude * (Real.pi / 180) + r / 6371) (Real.pi / 2) :=
      le_min (by linarith) (by linarith)
    have hm2 : min (latitude * (Real.pi / 180) + r / 6371) (Real.pi / 2) ≤ Real.pi / 2 :=
      min_le_right _ _
    have hscale : (0 : ℝ) ≤ 180 / Real.pi := by positivity
    refine ⟨by rw [neg_mul, epi], epi, ?_, ?_, ?_, ?_⟩
    · calc (-90 : ℝ) = -(Real.pi / 2) * (180 / Real.pi) := e90.symm
        _ ≤ _ := mul_le_mul_of_nonneg_right hM1 hscale
    · calc max (latitude * (Real.pi / 180) - r / 6371) (-(Real.pi / 2)) * (180 / Real.pi)
          ≤ Real.pi / 2 * (180 / Real.pi) := mul_le_mul_of_nonneg_right hM2 hscale
        _ = 90 := e90'
    · calc (-90 : ℝ) = -(Real.pi / 2) * (180 / Real.pi) := e90.symm
        _ ≤ _ := mul_le_mul_of_nonneg_right hm1 hscale
    · calc min (latitude * (Real.pi / 180) + r / 6371) (Real.pi / 2) * (180 / Real.pi)
          ≤ Real.pi / 2 * (180 / Real.pi) := mul_le_mul_of_nonneg_right hm2 hscale
        _ = 90 := e90'
  · intro hnp
    have hg : -(Real.pi / 2) < latitude * (Real.pi / 180) - r / 6371 ∧
        latitude * (Real.pi / 180) + r / 6371 < Real.pi / 2 := by
      by_contra hc
      exact hnp hc
    have hd0 : 0 ≤ r / 6371 := by positivity
    have hdπ : r / 6371 ≤ Real.pi := by linarith [hg.1, hg.2]
    have hcos : 0 < Real.cos (latitude * (Real.pi / 180)) := by
      apply Real.cos_pos_of_mem_Ioo
      constructor
      · linarith [hg.1]
      · linarith [hg.2]
    have hsin : 0 ≤ Real.sin (r / 6371) :=
      Real.sin_nonneg_of_nonneg_of_le_pi hd0 hdπ
    have harc : 0 ≤ Real.arcsin (Real.sin (r / 6371) / Real.cos (latitude * (Real.pi / 180))) :=
      Real.arcsin_nonneg.mpr (div_nonneg hsin (le_of_lt hcos))
    have hbox : calculateBoundingBox latitude longitude r =
        { minLat := (latitude * (Real.pi / 180) - r / 6371) * (180 / Real.pi)
          maxLat := (latitude * (Real.pi / 180) + r / 6371) * (180 / Real.pi)
          minLon := (if longitude * (Real.pi / 180) -
                Real.arcsin (Real.sin (r / 6371) / Real.cos (latitude * (Real.pi / 180))) <
                -Real.pi
              then longitude * (Real.pi / 180) -
                Real.arcsin (Real.sin (r / 6371) / Real.cos (latitude * (Real.pi / 180))) +
                2 * Real.pi
              else longitude * (Real.pi / 180) -
                Real.arcsin (Real.sin (r / 6371) / Real.cos (latitude * (Real.pi / 180)))) *
            (180 / Real.pi)
          maxLon := (if Real.pi < longitude * (Real.pi / 180) +
                Real.arcsin (Real.sin (r / 6371) / Real.cos (latitude * (Real.pi / 180)))
              then longitude * (Real.pi / 180) +
                Real.arcsin (Real.sin (r / 6371) / Real.cos (latitude * (Real.pi / 180))) -
                2 * Real.pi
              else longitude * (Real.pi / 180) +
                Real.arcsin (Real.sin (r / 6371) / Real.cos (latitude * (Real.pi / 180)))) *
            (180 / Real.pi) } := by
      simp only [calculateBoundingBox]
      rw [if_pos hg]
    refine ⟨Real.arcsin (Real.sin (r / 6371) / Real.cos (latitude * (Real.pi / 180))) *
        (180 / Real.pi), mul_nonneg harc (by positivity), ?_, ?_, ?_, ?_⟩
    · rw [hbox]
      field_simp
      try ring
    · rw [hbox]
      field_simp
      try ring
    · rw [hbox]
      dsimp only
      split_ifs with hwrap
      · right
        field_simp
        try ring
      · left
        field_simp
        try ring
    · rw [hbox]
      dsimp only
      split_ifs with hwrap
      · right
        field_simp
        try ring
      · left
        field_simp
        try ring

/-- Witness for C9 at the north pole: latitude 90, radius 1 km. -/
theorem claim_C9_w :
    |(90 : ℝ)| ≤ 90 ∧ (0 : ℝ) ≤ 1 ∧ poleCase 90 1 ∧
    ((calculateBoundingBox 90 0 1).minLon = -180 ∧
      (calculateBoundingBox 90 0 1).maxLon = 180 ∧
      -90 ≤ (calculateBoundingBox 90 0 1).minLat ∧
      (calculateBoundingBox 90 0 1).minLat ≤ 90 ∧
      -90 ≤ (calculateBoundingBox 90 0 1).maxLat ∧
      (calculateBoundingBox 90 0 1).maxLat ≤ 90) := by
  have hpole : poleCase 90 1 := by
    intro h
    have h2 := h.2
    rw [show (90 : ℝ) * (Real.pi / 180) = Real.pi / 2 by ring] at h2
    linarith
  exact ⟨by norm_num, by norm_num, hpole,
    (claim_C9_bounding_box 90 0 1 (by norm_num) (by norm_num)).1 hpole⟩

/-- C10: when a user already owns a shop, `ShopService.createShop` rejects
a second creation with the error `User already has a registered shop` (the
exact message when the payload is otherwise valid, and never a success in
any case), so shop creation preserves the invariant that each owner has at
most one shop. -/
theorem claim_C10_thm :
    ∀ (store : List MShop) (upload : String → String) (newId : Nat)
      (data : ShopData) (ownerId : Nat),
      ((∃ s ∈ store, s.owner = ownerId) → validateShopData data = [] →
        createShop store upload newId data ownerId =
          Except.error "Failed to create shop: User already has a registered shop") ∧
      ((∃ s ∈ store, s.owner = ownerId) →
        ∀ res, createShop store upload newId data ownerId ≠ Except.ok res) ∧
      (∀ shop' store',
        createShop store upload newId data ownerId = Except.ok (shop', store') →
        atMostOneShopPerOwner store → atMostOneShopPerOwner store') := by
  intro store upload newId data ownerId
  refine ⟨?_, ?_, ?_⟩
  · rintro ⟨s, hs, ho⟩ hv
    have hany : store.any (fun s => s.owner == ownerId) = true :=
      List.any_eq_true.mpr ⟨s, hs, by simp [ho]⟩
    simp [createShop, hv, hany]
  · rintro ⟨s, hs, ho⟩ res hcontra
    have hany : store.any (fun s => s.owner == ownerId) = true :=
      List.any_eq_true.mpr ⟨s, hs, by simp [ho]⟩
    by_cases hv : validateShopData data = []
    · simp [createShop, hv, hany] at hcontra
    · simp [createShop, hv, hany] at hcontra
  · intro shop' store' heq hinv
    by_cases hv : validateShopData data = []
    · by_cases hany : store.any (fun s => s.owner == ownerId) = true
      · simp [createShop, hv, hany] at heq
      · simp only [createShop, hv, ne_eq, not_true_eq_false, if_false,
          Bool.not_eq_true] at heq
        rw [if_neg hany] at heq
        simp only [Except.ok.injEq, Prod.mk.injEq] at heq
        obtain ⟨h1, h2⟩ := heq
        subst h1
        subst h2
        intro u
        by_cases hu : u = ownerId
        · subst hu
          have hflt : store.filter (fun s => s.owner == u) = [] := by
            rw [List.filter_eq_nil_iff]
            intro s hs
            simp only [beq_iff_eq]
            intro hc
            exact hany (List.any_eq_true.mpr ⟨s, hs, by simp [hc]⟩)
          simp [List.filter_cons, hflt]
        · simp only [List.filter_cons]
          rw [if_neg (by simp [Ne.symm hu])]
          exact hinv u
    · simp [createShop, hv] at heq

/-- Witness for C10: owner 7 already has a shop, and a valid second
payload is rejected with the documented error. -/
theorem claim_C10_w :
    (∃ s ∈ [(⟨1, "Old Shop", none, "5 Old Road", 0, 0, "grocery", "1234567890",
        "1234567890", none, 7, ShopStatus.approved⟩ : MShop)], s.owner = 7) ∧
    validateShopData ⟨some "Fresh Mart", none, some "12 Long Street", some 1, some 2,
      some "grocery", some "1234567890", none, none, none⟩ = [] ∧
    createShop
      [⟨1, "Old Shop", none, "5 Old Road", 0, 0, "grocery", "1234567890",
        "1234567890", none, 7, ShopStatus.approved⟩]
      (fun s => s) 99
      ⟨some "Fresh Mart", none, some "12 Long Street", some 1, some 2,
        some "grocery", some "1234567890", none, none, none⟩ 7 =
      Except.error "Failed to create shop: User already has a registered shop" :=
  ⟨by decide, by decide,
    (claim_C10_thm
      [⟨1, "Old Shop", none, "5 Old Road", 0, 0, "grocery", "1234567890",
        "1234567890", none, 7, ShopStatus.approved⟩]
      (fun s => s) 99
      ⟨some "Fresh Mart", none, some "12 Long Street", some 1, some 2,
        some "grocery", some "1234567890", none, none, none⟩ 7).1
      (by decide) (by decide)⟩
